import Mathlib

/-!
Verification of the xax CD-ROM XA sector extractor.

The source program (xax.py) parses a raw CD-ROM data track sector by
sector.  Each sector is a 2352-byte block: a 12-byte sync pattern, a
3-byte BCD address, a mode byte, and mode-dependent payload fields.
We embed the byte blocks as lists of natural numbers, the parser
(Sector.__init__) as a total function into Except, and the extraction
driver (main) as a recursion over the remaining input bytes that
accumulates the write operations it would perform.
-/

/-- Size of one raw sector block in bytes (SECTOR_SIZE in the source). -/
def SECTOR_SIZE : Nat := 2352

/-- The fixed 12-byte sync pattern that every sector must begin with. -/
def SYNC : List Nat :=
  [0x00, 0xff, 0xff, 0xff, 0xff, 0xff, 0xff, 0xff, 0xff, 0xff, 0xff, 0x00]

/-- Packed-decimal decoding used for the minute, second and sector
fields: low nibble plus ten times the high nibble, with no range check
on either nibble. -/
def bcd_to_int (byte : Nat) : Nat :=
  (byte &&& 15) + ((byte >>> 4) * 10)

/-- Python slice data[a:b] on a byte list. -/
def subBytes (xs : List Nat) (a b : Nat) : List Nat :=
  (xs.drop a).take (b - a)

/-- The three classified decode failures the parser can raise. -/
inductive DecodeError where
  | BadLength
  | BadSync
  | UnknownMode
deriving DecidableEq

/-- A parsed sector.  Fields that the source initialises to None and
only fills in for mode 2 are modelled as Option, so that unset and
zero-valued are distinguishable. -/
structure Sector where
  minute : Nat
  second : Nat
  sector : Nat
  mode : Nat
  checksum : Option (List Nat)
  ecc : Option (List Nat)
  file : Option Nat
  channel : Option Nat
  submode : Option Nat
  codinginfo : Option Nat
  eor : Option Bool
  type_video : Option Bool
  type_audio : Option Bool
  type_data : Option Bool
  trigger : Option Bool
  form : Option Nat
  realtime : Option Bool
  eof : Option Bool
  data_size : Nat
  data : List Nat
deriving DecidableEq

/-- The sector parser, embedding Sector.__init__ from the source: it
checks the length, the sync pattern and the mode byte in that order,
then fills in the mode-dependent fields. -/
def parseSector (data : List Nat) : Except DecodeError Sector :=
  if data.length ≠ SECTOR_SIZE then
    .error .BadLength
  else if data.take 12 ≠ SYNC then
    .error .BadSync
  else
    let minute := bcd_to_int (data.getD 12 0)
    let second := bcd_to_int (data.getD 13 0)
    let sector := bcd_to_int (data.getD 14 0)
    let mode := data.getD 15 0
    if mode = 0 then
      -- Empty sector
      .ok { minute, second, sector, mode,
            checksum := none, ecc := none,
            file := none, channel := none, submode := none,
            codinginfo := none, eor := none, type_video := none,
            type_audio := none, type_data := none, trigger := none,
            form := none, realtime := none, eof := none,
            data_size := 0, data := [] }
    else if mode = 1 then
      -- Basic CDROM sector
      .ok { minute, second, sector, mode,
            checksum := some (subBytes data 2064 2068),
            ecc := some (data.drop 2076),
            file := none, channel := none, submode := none,
            codinginfo := none, eor := none, type_video := none,
            type_audio := none, type_data := none, trigger := none,
            form := none, realtime := none, eof := none,
            data_size := 2048, data := subBytes data 16 2064 }
    else if mode = 2 then
      -- CDROM XA Mode2
      let file := data.getD 16 0
      let channel := data.getD 17 0 &&& 31
      let submode := data.getD 18 0
      let codinginfo := data.getD 19 0
      let eor := submode &&& 1 != 0
      let type_video := submode &&& 2 != 0
      let type_audio := submode &&& 4 != 0
      let type_data := submode &&& 8 != 0
      let trigger := submode &&& 16 != 0
      let realtime := submode &&& 64 != 0
      let eof := submode &&& 128 != 0
      if submode &&& 32 != 0 then
        -- Mode2/Form2
        .ok { minute, second, sector, mode,
              checksum := some (data.drop 2348), ecc := none,
              file := some file, channel := some channel,
              submode := some submode, codinginfo := some codinginfo,
              eor := some eor, type_video := some type_video,
              type_audio := some type_audio, type_data := some type_data,
              trigger := some trigger, form := some 2,
              realtime := some realtime, eof := some eof,
              data_size := 2324, data := subBytes data 24 2348 }
      else
        -- Mode2/Form1
        .ok { minute, second, sector, mode,
              checksum := some (subBytes data 2072 2076),
              ecc := some (data.drop 2076),
              file := some file, channel := some channel,
              submode := some submode, codinginfo := some codinginfo,
              eor := some eor, type_video := some type_video,
              type_audio := some type_audio, type_data := some type_data,
              trigger := some trigger, form := some 1,
              realtime := some realtime, eof := some eof,
              data_size := 2048, data := subBytes data 24 2072 }
    else
      .error .UnknownMode

/-- The is_filler property of a parsed sector: mode 0, or mode 2 form 2
whose submode byte equals exactly 32. -/
def Sector.is_filler (s : Sector) : Bool :=
  if s.mode = 0 then true
  else if s.mode = 2 ∧ s.form = some 2 ∧ s.submode = some 32 then true
  else false

/-- Truthiness of an optional boolean attribute, as Python evaluates it
in a condition: None is falsy, a boolean is itself. -/
def pyTruthy (o : Option Bool) : Bool := o.getD false

/-- The type name the driver assigns to a sector, from the if/elif
chain in main: video, else audio, else data, else untyped. -/
def typename (s : Sector) : String :=
  if pyTruthy s.type_video then "video"
  else if pyTruthy s.type_audio then "audio"
  else if pyTruthy s.type_data then "data"
  else "untyped"

/-- Two-digit lowercase hexadecimal rendering of a byte, as produced
by the 02x format in the source. -/
def hex2 (n : Nat) : String :=
  let s := String.mk (Nat.toDigits 16 n)
  if s.length < 2 then "0" ++ s else s

/-- Failures the driver loop can hit: a decode failure from the
parser, or the failure raised when formatting an unset file or channel
attribute into the output path. -/
inductive RunError where
  | decode : DecodeError → RunError
  | pathError : RunError
deriving DecidableEq

/-- The output path components the driver builds for a sector: type
name, file id in hex, channel id in hex.  Formatting an unset (None)
file or channel raises in the source, modelled as returning none. -/
def sectorPath (s : Sector) : Option (List String) :=
  match s.file, s.channel with
  | some f, some c => some [typename s, hex2 f, hex2 c]
  | _, _ => none

/-- One pass of the driver loop from main: read the next block of up
to SECTOR_SIZE bytes, stop cleanly on an empty read, otherwise parse
it, build the output path and record the append of the payload bytes
to that path. -/
def runAux (stream : List Nat) (n : Nat) (acc : List (List String × List Nat)) :
    Except RunError (Nat × List (List String × List Nat)) :=
  if h : stream = [] then
    .ok (n, acc)
  else
    match parseSector (stream.take SECTOR_SIZE) with
    | .error e => .error (.decode e)
    | .ok s =>
      match sectorPath s with
      | none => .error .pathError
      | some p => runAux (stream.drop SECTOR_SIZE) (n + 1) (acc ++ [(p, s.data)])
termination_by stream.length
decreasing_by
  have hpos : 0 < stream.length := List.length_pos.mpr h
  simp only [List.length_drop, SECTOR_SIZE]
  omega

/-- The whole driver run on an input stream: the number of sectors
processed and the sequence of append operations performed. -/
def runDriver (stream : List Nat) :
    Except RunError (Nat × List (List String × List Nat)) :=
  runAux stream 0 []

/-! Helper lemmas about bits, slices and the parser. -/

lemma mask_testBit (b i : Nat) : (b &&& 2 ^ i != 0) = b.testBit i := by
  rw [Nat.and_two_pow]
  cases h : b.testBit i
  · simp
  · simp [(Nat.two_pow_pos i).ne']

lemma subBytes_length (xs : List Nat) (a b : Nat) (h : b ≤ xs.length) :
    (subBytes xs a b).length = b - a := by
  simp only [subBytes, List.length_take, List.length_drop]
  omega

lemma drop_eq_subBytes (xs : List Nat) (a : Nat) (h : xs.length = 2352) :
    xs.drop a = subBytes xs a 2352 := by
  refine (List.take_of_length_le ?_).symm
  simp [List.length_drop, h]

lemma parseSector_badLength (data : List Nat) (h : data.length ≠ 2352) :
    parseSector data = .error .BadLength := by
  simp [parseSector, SECTOR_SIZE, h]

lemma parseSector_badSync (data : List Nat) (h1 : data.length = 2352)
    (h2 : data.take 12 ≠ SYNC) :
    parseSector data = .error .BadSync := by
  simp [parseSector, SECTOR_SIZE, h1, h2]

lemma parseSector_unknownMode (data : List Nat) (h1 : data.length = 2352)
    (h2 : data.take 12 = SYNC) (h3 : data.getD 15 0 ≠ 0)
    (h4 : data.getD 15 0 ≠ 1) (h5 : data.getD 15 0 ≠ 2) :
    parseSector data = .error .UnknownMode := by
  unfold parseSector
  rw [if_neg (by simp [SECTOR_SIZE, h1]), if_neg (by simp [h2])]
  simp only []
  rw [if_neg h3, if_neg h4, if_neg h5]

lemma parseSector_mode0 (data : List Nat) (h1 : data.length = 2352)
    (h2 : data.take 12 = SYNC) (h3 : data.getD 15 0 = 0) :
    parseSector data = .ok
      { minute := bcd_to_int (data.getD 12 0),
        second := bcd_to_int (data.getD 13 0),
        sector := bcd_to_int (data.getD 14 0), mode := 0,
        checksum := none, ecc := none,
        file := none, channel := none, submode := none,
        codinginfo := none, eor := none, type_video := none,
        type_audio := none, type_data := none, trigger := none,
        form := none, realtime := none, eof := none,
        data_size := 0, data := [] } := by
  unfold parseSector
  rw [if_neg (by simp [SECTOR_SIZE, h1]), if_neg (by simp [h2])]
  simp only [h3, reduceIte]

lemma parseSector_mode1 (data : List Nat) (h1 : data.length = 2352)
    (h2 : data.take 12 = SYNC) (h3 : data.getD 15 0 = 1) :
    parseSector data = .ok
      { minute := bcd_to_int (data.getD 12 0),
        second := bcd_to_int (data.getD 13 0),
        sector := bcd_to_int (data.getD 14 0), mode := 1,
        checksum := some (subBytes data 2064 2068),
        ecc := some (data.drop 2076),
        file := none, channel := none, submode := none,
        codinginfo := none, eor := none, type_video := none,
        type_audio := none, type_data := none, trigger := none,
        form := none, realtime := none, eof := none,
        data_size := 2048, data := subBytes data 16 2064 } := by
  unfold parseSector
  rw [if_neg (by simp [SECTOR_SIZE, h1]), if_neg (by simp [h2])]
  simp only [h3, reduceIte]
  rw [if_neg (by decide)]

lemma parseSector_mode2 (data : List Nat) (h1 : data.length = 2352)
    (h2 : data.take 12 = SYNC) (h3 : data.getD 15 0 = 2) :
    parseSector data =
      (if data.getD 18 0 &&& 32 != 0 then
        .ok { minute := bcd_to_int (data.getD 12 0),
              second := bcd_to_int (data.getD 13 0),
              sector := bcd_to_int (data.getD 14 0), mode := 2,
              checksum := some (data.drop 2348), ecc := none,
              file := some (data.getD 16 0),
              channel := some (data.getD 17 0 &&& 31),
              submode := some (data.getD 18 0),
              codinginfo := some (data.getD 19 0),
              eor := some (data.getD 18 0 &&& 1 != 0),
              type_video := some (data.getD 18 0 &&& 2 != 0),
              type_audio := some (data.getD 18 0 &&& 4 != 0),
              type_data := some (data.getD 18 0 &&& 8 != 0),
              trigger := some (data.getD 18 0 &&& 16 != 0),
              form := some 2,
              realtime := some (data.getD 18 0 &&& 64 != 0),
              eof := some (data.getD 18 0 &&& 128 != 0),
              data_size := 2324, data := subBytes data 24 2348 }
      else
        .ok { minute := bcd_to_int (data.getD 12 0),
              second := bcd_to_int (data.getD 13 0),
              sector := bcd_to_int (data.getD 14 0), mode := 2,
              checksum := some (subBytes data 2072 2076),
              ecc := some (data.drop 2076),
              file := some (data.getD 16 0),
              channel := some (data.getD 17 0 &&& 31),
              submode := some (data.getD 18 0),
              codinginfo := some (data.getD 19 0),
              eor := some (data.getD 18 0 &&& 1 != 0),
              type_video := some (data.getD 18 0 &&& 2 != 0),
              type_audio := some (data.getD 18 0 &&& 4 != 0),
              type_data := some (data.getD 18 0 &&& 8 != 0),
              trigger := some (data.getD 18 0 &&& 16 != 0),
              form := some 1,
              realtime := some (data.getD 18 0 &&& 64 != 0),
              eof := some (data.getD 18 0 &&& 128 != 0),
              data_size := 2048, data := subBytes data 24 2072 }) := by
  unfold parseSector
  rw [if_neg (by simp [SECTOR_SIZE, h1]), if_neg (by simp [h2])]
  simp only [h3, reduceIte]
  rw [if_neg (by decide), if_neg (by decide)]

lemma parseSector_ok (data : List Nat) (h1 : data.length = 2352)
    (h2 : data.take 12 = SYNC)
    (h3 : data.getD 15 0 = 0 ∨ data.getD 15 0 = 1 ∨ data.getD 15 0 = 2) :
    ∃ s, parseSector data = .ok s := by
  rcases h3 with h3 | h3 | h3
  · exact ⟨_, parseSector_mode0 data h1 h2 h3⟩
  · exact ⟨_, parseSector_mode1 data h1 h2 h3⟩
  · rw [parseSector_mode2 data h1 h2 h3]
    by_cases hb : (data.getD 18 0 &&& 32 != 0) = true
    · rw [if_pos hb]; exact ⟨_, rfl⟩
    · rw [if_neg hb]; exact ⟨_, rfl⟩

lemma parseSector_cases (data : List Nat) :
    (data.length ≠ 2352 ∧ parseSector data = .error .BadLength) ∨
    (data.length = 2352 ∧ data.take 12 ≠ SYNC ∧
      parseSector data = .error .BadSync) ∨
    (data.length = 2352 ∧ data.take 12 = SYNC ∧
      (data.getD 15 0 = 0 ∨ data.getD 15 0 = 1 ∨ data.getD 15 0 = 2) ∧
      ∃ s, parseSector data = .ok s) ∨
    (data.length = 2352 ∧ data.take 12 = SYNC ∧
      data.getD 15 0 ≠ 0 ∧ data.getD 15 0 ≠ 1 ∧ data.getD 15 0 ≠ 2 ∧
      parseSector data = .error .UnknownMode) := by
  by_cases hl : data.length = 2352
  · by_cases hs : data.take 12 = SYNC
    · by_cases h0 : data.getD 15 0 = 0
      · exact .inr (.inr (.inl ⟨hl, hs, .inl h0,
          parseSector_ok data hl hs (.inl h0)⟩))
      · by_cases hm1 : data.getD 15 0 = 1
        · exact .inr (.inr (.inl ⟨hl, hs, .inr (.inl hm1),
            parseSector_ok data hl hs (.inr (.inl hm1))⟩))
        · by_cases hm2 : data.getD 15 0 = 2
          · exact .inr (.inr (.inl ⟨hl, hs, .inr (.inr hm2),
              parseSector_ok data hl hs (.inr (.inr hm2))⟩))
          · exact .inr (.inr (.inr ⟨hl, hs, h0, hm1, hm2,
              parseSector_unknownMode data hl hs h0 hm1 hm2⟩))
    · exact .inr (.inl ⟨hl, hs, parseSector_badSync data hl hs⟩)
  · exact .inl ⟨hl, parseSector_badLength data hl⟩

lemma maskBit0 (b : Nat) : (b &&& 1 != 0) = b.testBit 0 := by
  simpa using mask_testBit b 0

lemma maskBit1 (b : Nat) : (b &&& 2 != 0) = b.testBit 1 := by
  simpa using mask_testBit b 1

lemma maskBit2 (b : Nat) : (b &&& 4 != 0) = b.testBit 2 := by
  simpa using mask_testBit b 2

lemma maskBit3 (b : Nat) : (b &&& 8 != 0) = b.testBit 3 := by
  simpa using mask_testBit b 3

lemma maskBit4 (b : Nat) : (b &&& 16 != 0) = b.testBit 4 := by
  simpa using mask_testBit b 4

lemma maskBit5 (b : Nat) : (b &&& 32 != 0) = b.testBit 5 := by
  simpa using mask_testBit b 5

lemma maskBit6 (b : Nat) : (b &&& 64 != 0) = b.testBit 6 := by
  simpa using mask_testBit b 6

lemma maskBit7 (b : Nat) : (b &&& 128 != 0) = b.testBit 7 := by
  simpa using mask_testBit b 7

/-! Concrete blocks used to instantiate the theorems below. -/

/-- Construction of a concrete test block: the sync pattern, the three
address bytes, the mode byte, the given header bytes, and zero padding
up to 2352 bytes. -/
def mkBlock (m s f mode : Nat) (hdr : List Nat) : List Nat :=
  SYNC ++ [m, s, f, mode] ++ hdr ++ List.replicate (2352 - 16 - hdr.length) 0

lemma mkBlock_length (m s f mode : Nat) (hdr : List Nat)
    (h : hdr.length ≤ 2336) :
    (mkBlock m s f mode hdr).length = 2352 := by
  simp [mkBlock, SYNC]
  omega

lemma mkBlock_sync (m s f mode : Nat) (hdr : List Nat) :
    (mkBlock m s f mode hdr).take 12 = SYNC := rfl

lemma mkBlock_mode (m s f mode : Nat) (hdr : List Nat) :
    (mkBlock m s f mode hdr).getD 15 0 = mode := rfl

/-- A mode-0 (empty) test block with BCD address 27:00:99. -/
def blockEmpty : List Nat := mkBlock 0x27 0x00 0x99 0 []

/-- A mode-1 test block. -/
def blockBasic : List Nat := mkBlock 0x12 0x34 0x56 1 []

/-- A mode-2 form-1 test block: file 1, channel byte 0xFF, submode
0x0E (video, audio and data bits set, bit 5 clear). -/
def blockForm1 : List Nat := mkBlock 0 0 0 2 [0x01, 0xFF, 0x0E, 0x07]

/-- A mode-2 form-2 test block: file 2, channel byte 0x21, submode
0x66 (video, audio, form-2 and realtime bits set). -/
def blockForm2 : List Nat := mkBlock 0 0 0 2 [0x02, 0x21, 0x66, 0x00]

/-- A mode-2 form-2 filler block: submode exactly 32. -/
def blockFiller : List Nat := mkBlock 0 0 0 2 [0x00, 0x00, 0x20, 0x00]

/-- A block whose mode byte is 3, outside the recognised modes. -/
def blockBadMode : List Nat := mkBlock 0 0 0 3 []

/-- A 2352-byte block that does not start with the sync pattern. -/
def blockBadSync : List Nat := List.replicate 2352 7

/-! Claim theorems. -/

/-- C1: for every 2352-byte block with valid sync whose mode byte
(byte 15) is 2, the parser reads the subheader at bytes 16..19: file
is byte 16, channel is byte 17 masked to its low five bits (hence at
most 31), submode is byte 18, codinginfo is byte 19, and the submode
flags are its bits LSB-first: eor bit 0, type_video bit 1, type_audio
bit 2, type_data bit 3, trigger bit 4, form-2 indicator bit 5,
realtime bit 6, eof bit 7. -/
theorem C1_mode2_subheader (data : List Nat) (h1 : data.length = 2352)
    (h2 : data.take 12 = SYNC) (h3 : data.getD 15 0 = 2) :
    (parseSector data).map (fun s => s.file) = .ok (some (data.getD 16 0)) ∧
    (parseSector data).map (fun s => s.channel)
      = .ok (some (data.getD 17 0 &&& 31)) ∧
    data.getD 17 0 &&& 31 ≤ 31 ∧
    (parseSector data).map (fun s => s.submode)
      = .ok (some (data.getD 18 0)) ∧
    (parseSector data).map (fun s => s.codinginfo)
      = .ok (some (data.getD 19 0)) ∧
    (parseSector data).map (fun s => s.eor)
      = .ok (some ((data.getD 18 0).testBit 0)) ∧
    (parseSector data).map (fun s => s.type_video)
      = .ok (some ((data.getD 18 0).testBit 1)) ∧
    (parseSector data).map (fun s => s.type_audio)
      = .ok (some ((data.getD 18 0).testBit 2)) ∧
    (parseSector data).map (fun s => s.type_data)
      = .ok (some ((data.getD 18 0).testBit 3)) ∧
    (parseSector data).map (fun s => s.trigger)
      = .ok (some ((data.getD 18 0).testBit 4)) ∧
    (parseSector data).map (fun s => s.form)
      = .ok (some (if (data.getD 18 0).testBit 5 then 2 else 1)) ∧
    (parseSector data).map (fun s => s.realtime)
      = .ok (some ((data.getD 18 0).testBit 6)) ∧
    (parseSector data).map (fun s => s.eof)
      = .ok (some ((data.getD 18 0).testBit 7)) := by
  rw [parseSector_mode2 data h1 h2 h3]
  by_cases hb : (data.getD 18 0 &&& 32 != 0) = true
  · rw [if_pos hb]
    rw [maskBit5] at hb
    refine ⟨rfl, rfl, Nat.and_le_right, rfl, rfl, ?_, ?_, ?_, ?_, ?_, ?_, ?_, ?_⟩
    all_goals simp only [Except.map, hb, ← maskBit0, ← maskBit1, ← maskBit2,
      ← maskBit3, ← maskBit4, ← maskBit6, ← maskBit7, if_true, reduceIte]
  · rw [if_neg hb]
    rw [maskBit5] at hb
    simp only [Bool.not_eq_true] at hb
    refine ⟨rfl, rfl, Nat.and_le_right, rfl, rfl, ?_, ?_, ?_, ?_, ?_, ?_, ?_, ?_⟩
    all_goals simp only [Except.map, hb, ← maskBit0, ← maskBit1, ← maskBit2,
      ← maskBit3, ← maskBit4, ← maskBit6, ← maskBit7, Bool.false_eq_true,
      if_false, reduceIte]

/-- Witness for C1 at the concrete form-2 block blockForm2, whose
subheader is file 2, channel byte 0x21, submode 0x66, codinginfo 0. -/
theorem C1_mode2_subheader_witness :
    (parseSector blockForm2).map (fun s => s.file) = .ok (some 2) ∧
    (parseSector blockForm2).map (fun s => s.channel) = .ok (some 1) ∧
    (1 : Nat) ≤ 31 ∧
    (parseSector blockForm2).map (fun s => s.submode) = .ok (some 0x66) ∧
    (parseSector blockForm2).map (fun s => s.codinginfo) = .ok (some 0) ∧
    (parseSector blockForm2).map (fun s => s.eor) = .ok (some false) ∧
    (parseSector blockForm2).map (fun s => s.type_video) = .ok (some true) ∧
    (parseSector blockForm2).map (fun s => s.type_audio) = .ok (some true) ∧
    (parseSector blockForm2).map (fun s => s.type_data) = .ok (some false) ∧
    (parseSector blockForm2).map (fun s => s.trigger) = .ok (some false) ∧
    (parseSector blockForm2).map (fun s => s.form) = .ok (some 2) ∧
    (parseSector blockForm2).map (fun s => s.realtime) = .ok (some true) ∧
    (parseSector blockForm2).map (fun s => s.eof) = .ok (some false) :=
  C1_mode2_subheader blockForm2
    (mkBlock_length 0 0 0 2 [0x02, 0x21, 0x66, 0x00] (by decide)) rfl rfl

/-- C2: for every 2352-byte mode-2 block, if bit 5 of the submode byte
is set the sector is Form 2 with payload bytes 24..2347 (2324 bytes),
checksum bytes 2348..2351 and no ecc; otherwise it is Form 1 with
payload bytes 24..2071 (2048 bytes), checksum bytes 2072..2075 and ecc
bytes 2076..2351. -/
theorem C2_mode2_forms (data : List Nat) (h1 : data.length = 2352)
    (h2 : data.take 12 = SYNC) (h3 : data.getD 15 0 = 2) :
    ((data.getD 18 0).testBit 5 = true →
      (parseSector data).map (fun s => s.form) = .ok (some 2) ∧
      (parseSector data).map (fun s => s.data)
        = .ok (subBytes data 24 2348) ∧
      (parseSector data).map (fun s => s.data.length) = .ok 2324 ∧
      (parseSector data).map (fun s => s.checksum)
        = .ok (some (subBytes data 2348 2352)) ∧
      (parseSector data).map (fun s => s.ecc) = .ok none) ∧
    ((data.getD 18 0).testBit 5 = false →
      (parseSector data).map (fun s => s.form) = .ok (some 1) ∧
      (parseSector data).map (fun s => s.data)
        = .ok (subBytes data 24 2072) ∧
      (parseSector data).map (fun s => s.data.length) = .ok 2048 ∧
      (parseSector data).map (fun s => s.checksum)
        = .ok (some (subBytes data 2072 2076)) ∧
      (parseSector data).map (fun s => s.ecc)
        = .ok (some (subBytes data 2076 2352))) := by
  rw [parseSector_mode2 data h1 h2 h3]
  constructor
  · intro hb
    rw [if_pos (by rw [maskBit5]; exact hb)]
    refine ⟨rfl, rfl, ?_, ?_, rfl⟩
    · show Except.ok (subBytes data 24 2348).length = Except.ok (2324 : Nat)
      rw [subBytes_length data 24 2348 (by omega)]
    · show Except.ok (some (data.drop 2348))
        = Except.ok (some (subBytes data 2348 2352))
      rw [drop_eq_subBytes data 2348 h1]
  · intro hb
    rw [if_neg (by rw [maskBit5, hb]; exact Bool.false_ne_true)]
    refine ⟨rfl, rfl, ?_, rfl, ?_⟩
    · show Except.ok (subBytes data 24 2072).length = Except.ok (2048 : Nat)
      rw [subBytes_length data 24 2072 (by omega)]
    · show Except.ok (some (data.drop 2076))
        = Except.ok (some (subBytes data 2076 2352))
      rw [drop_eq_subBytes data 2076 h1]

/-- Witness for C2 at the concrete form-2 block (submode 0x66, bit 5
set) and the concrete form-1 block (submode 0x0E, bit 5 clear). -/
theorem C2_mode2_forms_witness :
    ((parseSector blockForm2).map (fun s => s.form) = .ok (some 2) ∧
     (parseSector blockForm2).map (fun s => s.data)
       = .ok (subBytes blockForm2 24 2348) ∧
     (parseSector blockForm2).map (fun s => s.data.length) = .ok 2324 ∧
     (parseSector blockForm2).map (fun s => s.checksum)
       = .ok (some (subBytes blockForm2 2348 2352)) ∧
     (parseSector blockForm2).map (fun s => s.ecc) = .ok none) ∧
    ((parseSector blockForm1).map (fun s => s.form) = .ok (some 1) ∧
     (parseSector blockForm1).map (fun s => s.data)
       = .ok (subBytes blockForm1 24 2072) ∧
     (parseSector blockForm1).map (fun s => s.data.length) = .ok 2048 ∧
     (parseSector blockForm1).map (fun s => s.checksum)
       = .ok (some (subBytes blockForm1 2072 2076)) ∧
     (parseSector blockForm1).map (fun s => s.ecc)
       = .ok (some (subBytes blockForm1 2076 2352))) :=
  ⟨(C2_mode2_forms blockForm2
      (mkBlock_length 0 0 0 2 [0x02, 0x21, 0x66, 0x00] (by decide))
      rfl rfl).1 rfl,
   (C2_mode2_forms blockForm1
      (mkBlock_length 0 0 0 2 [0x01, 0xFF, 0x0E, 0x07] (by decide))
      rfl rfl).2 rfl⟩

/-- C3: for every 2352-byte block with valid sync, mode 0 yields an
empty payload with all mode-2 fields unset, and mode 1 yields payload
bytes 16..2063 (2048 bytes), checksum bytes 2064..2067 and ecc bytes
2076..2351. -/
theorem C3_mode0_mode1 (data : List Nat) (h1 : data.length = 2352)
    (h2 : data.take 12 = SYNC) :
    (data.getD 15 0 = 0 →
      (parseSector data).map (fun s => s.data) = .ok [] ∧
      (parseSector data).map (fun s => s.data.length) = .ok 0 ∧
      (parseSector data).map (fun s => s.file) = .ok none ∧
      (parseSector data).map (fun s => s.channel) = .ok none ∧
      (parseSector data).map (fun s => s.submode) = .ok none ∧
      (parseSector data).map (fun s => s.codinginfo) = .ok none ∧
      (parseSector data).map (fun s => s.eor) = .ok none ∧
      (parseSector data).map (fun s => s.type_video) = .ok none ∧
      (parseSector data).map (fun s => s.type_audio) = .ok none ∧
      (parseSector data).map (fun s => s.type_data) = .ok none ∧
      (parseSector data).map (fun s => s.trigger) = .ok none ∧
      (parseSector data).map (fun s => s.form) = .ok none ∧
      (parseSector data).map (fun s => s.realtime) = .ok none ∧
      (parseSector data).map (fun s => s.eof) = .ok none) ∧
    (data.getD 15 0 = 1 →
      (parseSector data).map (fun s => s.data)
        = .ok (subBytes data 16 2064) ∧
      (parseSector data).map (fun s => s.data.length) = .ok 2048 ∧
      (parseSector data).map (fun s => s.checksum)
        = .ok (some (subBytes data 2064 2068)) ∧
      (parseSector data).map (fun s => s.ecc)
        = .ok (some (subBytes data 2076 2352))) := by
  constructor
  · intro h3
    rw [parseSector_mode0 data h1 h2 h3]
    exact ⟨rfl, rfl, rfl, rfl, rfl, rfl, rfl, rfl, rfl, rfl, rfl, rfl, rfl, rfl⟩
  · intro h3
    rw [parseSector_mode1 data h1 h2 h3]
    refine ⟨rfl, ?_, rfl, ?_⟩
    · show Except.ok (subBytes data 16 2064).length = Except.ok (2048 : Nat)
      rw [subBytes_length data 16 2064 (by omega)]
    · show Except.ok (some (data.drop 2076))
        = Except.ok (some (subBytes data 2076 2352))
      rw [drop_eq_subBytes data 2076 h1]

/-- Witness for C3 at the concrete mode-0 block and mode-1 block. -/
theorem C3_mode0_mode1_witness :
    ((parseSector blockEmpty).map (fun s => s.data) = .ok [] ∧
     (parseSector blockEmpty).map (fun s => s.data.length) = .ok 0 ∧
     (parseSector blockEmpty).map (fun s => s.file) = .ok none ∧
     (parseSector blockEmpty).map (fun s => s.channel) = .ok none ∧
     (parseSector blockEmpty).map (fun s => s.submode) = .ok none ∧
     (parseSector blockEmpty).map (fun s => s.codinginfo) = .ok none ∧
     (parseSector blockEmpty).map (fun s => s.eor) = .ok none ∧
     (parseSector blockEmpty).map (fun s => s.type_video) = .ok none ∧
     (parseSector blockEmpty).map (fun s => s.type_audio) = .ok none ∧
     (parseSector blockEmpty).map (fun s => s.type_data) = .ok none ∧
     (parseSector blockEmpty).map (fun s => s.trigger) = .ok none ∧
     (parseSector blockEmpty).map (fun s => s.form) = .ok none ∧
     (parseSector blockEmpty).map (fun s => s.realtime) = .ok none ∧
     (parseSector blockEmpty).map (fun s => s.eof) = .ok none) ∧
    ((parseSector blockBasic).map (fun s => s.data)
       = .ok (subBytes blockBasic 16 2064) ∧
     (parseSector blockBasic).map (fun s => s.data.length) = .ok 2048 ∧
     (parseSector blockBasic).map (fun s => s.checksum)
       = .ok (some (subBytes blockBasic 2064 2068)) ∧
     (parseSector blockBasic).map (fun s => s.ecc)
       = .ok (some (subBytes blockBasic 2076 2352))) :=
  ⟨(C3_mode0_mode1 blockEmpty
      (mkBlock_length 0x27 0x00 0x99 0 [] (by decide)) rfl).1 rfl,
   (C3_mode0_mode1 blockBasic
      (mkBlock_length 0x12 0x34 0x56 1 [] (by decide)) rfl).2 rfl⟩

/-- C4: parsing fails with BadLength exactly when the input is not
2352 bytes; given correct length it fails with BadSync exactly when
the first 12 bytes differ from the sync pattern; given correct length
and sync it fails with UnknownMode exactly when byte 15 is outside
{0, 1, 2}; the checks apply in that order. -/
theorem C4_error_order (data : List Nat) :
    (parseSector data = .error .BadLength ↔ data.length ≠ 2352) ∧
    (data.length = 2352 →
      (parseSector data = .error .BadSync ↔ data.take 12 ≠ SYNC)) ∧
    (data.length = 2352 → data.take 12 = SYNC →
      (parseSector data = .error .UnknownMode ↔
        ¬(data.getD 15 0 = 0 ∨ data.getD 15 0 = 1 ∨ data.getD 15 0 = 2))) := by
  rcases parseSector_cases data with ⟨hl, hp⟩ | ⟨hl, hs, hp⟩ |
    ⟨hl, hs, hm, s, hp⟩ | ⟨hl, hs, h0, hm1, hm2, hp⟩
  · exact ⟨⟨fun _ => hl, fun _ => hp⟩,
      fun h => absurd h hl, fun h => absurd h hl⟩
  · refine ⟨?_, fun _ => ⟨fun _ => hs, fun _ => hp⟩,
      fun _ hsync => absurd hsync hs⟩
    simp [hp, hl]
  · refine ⟨?_, fun _ => ?_, fun _ _ => ⟨fun h => ?_, fun h => absurd hm h⟩⟩
    · simp [hp, hl]
    · simp [hp, hs]
    · rw [hp] at h
      exact absurd h (by simp)
  · refine ⟨?_, fun _ => ?_, fun _ _ => ⟨fun _ => ?_, fun _ => hp⟩⟩
    · simp [hp, hl]
    · simp [hp, hs]
    · tauto

/-- Witness for C4: a short input gives BadLength, a 2352-byte block
without the sync pattern gives BadSync, and a synced block with mode
byte 3 gives UnknownMode. -/
theorem C4_error_order_witness :
    parseSector (List.replicate 10 0) = .error .BadLength ∧
    parseSector blockBadSync = .error .BadSync ∧
    parseSector blockBadMode = .error .UnknownMode :=
  ⟨(C4_error_order (List.replicate 10 0)).1.mpr (by simp),
   ((C4_error_order blockBadSync).2.1
     (by simp only [blockBadSync, List.length_replicate])).mpr
     (by decide),
   ((C4_error_order blockBadMode).2.2
     (mkBlock_length 0 0 0 3 [] (by decide)) rfl).mpr (by decide)⟩

/-- The parsed sector of the filler block, as an explicit record. -/
def fillerParsed : Sector :=
  { minute := 0, second := 0, sector := 0, mode := 2,
    checksum := some (blockFiller.drop 2348), ecc := none,
    file := some 0, channel := some 0, submode := some 32,
    codinginfo := some 0, eor := some false, type_video := some false,
    type_audio := some false, type_data := some false,
    trigger := some false, form := some 2, realtime := some false,
    eof := some false, data_size := 2324,
    data := subBytes blockFiller 24 2348 }

lemma parse_blockFiller : parseSector blockFiller = .ok fillerParsed := by
  rw [parseSector_mode2 blockFiller
    (mkBlock_length 0 0 0 2 [0x00, 0x00, 0x20, 0x00] (by decide)) rfl rfl]
  rfl

/-- The parsed sector of blockForm2, as an explicit record. -/
def form2Parsed : Sector :=
  { minute := 0, second := 0, sector := 0, mode := 2,
    checksum := some (blockForm2.drop 2348), ecc := none,
    file := some 2, channel := some 1, submode := some 0x66,
    codinginfo := some 0, eor := some false, type_video := some true,
    type_audio := some true, type_data := some false,
    trigger := some false, form := some 2, realtime := some true,
    eof := some false, data_size := 2324,
    data := subBytes blockForm2 24 2348 }

lemma parse_blockForm2 : parseSector blockForm2 = .ok form2Parsed := by
  rw [parseSector_mode2 blockForm2
    (mkBlock_length 0 0 0 2 [0x02, 0x21, 0x66, 0x00] (by decide)) rfl rfl]
  rfl

/-- C5: for every successfully parsed sector, is_filler holds exactly
when the mode is 0, or the mode is 2 with form 2 and the submode byte
exactly equal to 32; a form-2 sector with any extra flag bit set is
not filler. -/
theorem C5_is_filler_exact (data : List Nat) (s : Sector)
    (h : parseSector data = .ok s) :
    (s.is_filler = true ↔
      s.mode = 0 ∨ (s.mode = 2 ∧ s.form = some 2 ∧ s.submode = some 32)) ∧
    (s.mode = 2 → s.form = some 2 → s.submode ≠ some 32 →
      s.is_filler = false) := by
  constructor
  · unfold Sector.is_filler
    by_cases h0 : s.mode = 0
    · simp [h0]
    · by_cases h2 : s.mode = 2 ∧ s.form = some 2 ∧ s.submode = some 32
      · simp [h0, h2]
      · simp [h0, h2]
  · intro hm hf hs
    unfold Sector.is_filler
    rw [if_neg (by simp [hm]), if_neg (by simp [hs])]

/-- Witness for C5: the all-zero form-2 filler sector is filler, and
the form-2 sector with extra submode bits (0x66) is not. -/
theorem C5_is_filler_exact_witness :
    Sector.is_filler fillerParsed = true ∧
    Sector.is_filler form2Parsed = false :=
  ⟨(C5_is_filler_exact blockFiller fillerParsed parse_blockFiller).1.mpr
      (.inr ⟨rfl, rfl, rfl⟩),
   (C5_is_filler_exact blockForm2 form2Parsed parse_blockForm2).2
      rfl rfl (by decide)⟩

/-- A sector with prescribed type flags, used to exercise the type
classification. -/
def mkTypeSector (v a d : Option Bool) : Sector :=
  { minute := 0, second := 0, sector := 0, mode := 2,
    checksum := none, ecc := none, file := some 0, channel := some 0,
    submode := some 0, codinginfo := some 0, eor := some false,
    type_video := v, type_audio := a, type_data := d,
    trigger := some false, form := some 1, realtime := some false,
    eof := some false, data_size := 0, data := [] }

/-- C6: the driver classifies each sector by strict priority: video if
the video flag is truthy, else audio, else data, else untyped, so a
sector with several type bits set takes the highest-priority name. -/
theorem C6_typename_priority (s : Sector) :
    (pyTruthy s.type_video = true → typename s = "video") ∧
    (pyTruthy s.type_video = false → pyTruthy s.type_audio = true →
      typename s = "audio") ∧
    (pyTruthy s.type_video = false → pyTruthy s.type_audio = false →
      pyTruthy s.type_data = true → typename s = "data") ∧
    (pyTruthy s.type_video = false → pyTruthy s.type_audio = false →
      pyTruthy s.type_data = false → typename s = "untyped") := by
  unfold typename
  exact ⟨fun hv => by simp [hv], fun hv ha => by simp [hv, ha],
    fun hv ha hd => by simp [hv, ha, hd],
    fun hv ha hd => by simp [hv, ha, hd]⟩

/-- Witness for C6: a sector with all three type bits set is video, so
video wins over audio and data; the other branches are also hit. -/
theorem C6_typename_priority_witness :
    typename (mkTypeSector (some true) (some true) (some true)) = "video" ∧
    typename (mkTypeSector (some false) (some true) (some true)) = "audio" ∧
    typename (mkTypeSector (some false) (some false) (some true)) = "data" ∧
    typename (mkTypeSector none none none) = "untyped" :=
  ⟨(C6_typename_priority (mkTypeSector (some true) (some true)
      (some true))).1 rfl,
   (C6_typename_priority (mkTypeSector (some false) (some true)
      (some true))).2.1 rfl rfl,
   (C6_typename_priority (mkTypeSector (some false) (some false)
      (some true))).2.2.1 rfl rfl rfl,
   (C6_typename_priority (mkTypeSector none none none)).2.2.2 rfl rfl rfl⟩

/-- C7: the BCD decode is the low nibble plus ten times the high
nibble, equivalently in terms of division and remainder by sixteen,
with no range check on either nibble: 0x27 decodes to 27, 0x00 to 0,
0x99 to 99, and the non-decimal 0x3A passes through as 40. -/
theorem C7_bcd_decode (b : Nat) :
    bcd_to_int b = (b &&& 15) + ((b >>> 4) * 10) ∧
    bcd_to_int b = (b % 16) + ((b / 16) * 10) ∧
    bcd_to_int 0x27 = 27 ∧ bcd_to_int 0x00 = 0 ∧ bcd_to_int 0x99 = 99 ∧
    bcd_to_int 0x3A = 40 := by
  refine ⟨rfl, ?_, by decide, by decide, by decide, by decide⟩
  have hand : b &&& 15 = b % 16 := Nat.and_pow_two_sub_one_eq_mod b 4
  have hshift : b >>> 4 = b / 16 := Nat.shiftRight_eq_div_pow b 4
  unfold bcd_to_int
  rw [hand, hshift]

/-- C8: an empty read terminates the driver loop cleanly with zero
sectors and no writes, while a nonzero final read shorter than 2352
bytes fails with the BadLength decode error. -/
theorem C8_driver_termination (stream : List Nat) :
    (stream = [] → runDriver stream = .ok (0, [])) ∧
    (stream ≠ [] → stream.length < 2352 →
      runDriver stream = .error (.decode .BadLength)) := by
  constructor
  · intro h
    subst h
    show runAux [] 0 [] = .ok (0, [])
    rw [runAux]
    rfl
  · intro hne hlt
    show runAux stream 0 [] = .error (.decode .BadLength)
    rw [runAux, dif_neg hne]
    have ht : stream.take SECTOR_SIZE = stream :=
      List.take_of_length_le (by simp [SECTOR_SIZE]; omega)
    rw [ht, parseSector_badLength stream (by omega)]

/-- Witness for C8: the empty stream yields zero sectors and no
writes, and a one-byte stream is a fatal length error. -/
theorem C8_driver_termination_witness :
    runDriver [] = .ok (0, []) ∧
    runDriver [7] = .error (.decode .BadLength) :=
  ⟨(C8_driver_termination []).1 rfl,
   (C8_driver_termination [7]).2 (by decide) (by decide)⟩

/-- The parsed sector of blockEmpty, as an explicit record. -/
def emptyParsed : Sector :=
  { minute := 27, second := 0, sector := 99, mode := 0,
    checksum := none, ecc := none, file := none, channel := none,
    submode := none, codinginfo := none, eor := none, type_video := none,
    type_audio := none, type_data := none, trigger := none, form := none,
    realtime := none, eof := none, data_size := 0, data := [] }

lemma parse_blockEmpty : parseSector blockEmpty = .ok emptyParsed := by
  rw [parseSector_mode0 blockEmpty
    (mkBlock_length 0x27 0x00 0x99 0 [] (by decide)) rfl rfl]
  rfl

/-- C9: the driver reads the file and channel attributes of every
sector when building the output path, so a stream beginning with a
successfully parsed mode-0 or mode-1 sector, whose file and channel
are unset, makes the driver fail at path formatting instead of
writing the payload anywhere. -/
theorem C9_driver_path_failure (data rest : List Nat) (s : Sector)
    (n : Nat) (acc : List (List String × List Nat))
    (h1 : data.length = 2352) (hp : parseSector data = .ok s)
    (hm : s.mode = 0 ∨ s.mode = 1) :
    s.file = none ∧ s.channel = none ∧
    runAux (data ++ rest) n acc = .error .pathError := by
  have hs2 : data.take 12 = SYNC := by
    by_contra hsync
    rw [parseSector_badSync data h1 hsync] at hp
    exact absurd hp (by simp)
  have hmode : data.getD 15 0 = 0 ∨ data.getD 15 0 = 1 := by
    by_cases h0 : data.getD 15 0 = 0
    · exact .inl h0
    · by_cases hm1 : data.getD 15 0 = 1
      · exact .inr hm1
      · by_cases hm2 : data.getD 15 0 = 2
        · exfalso
          rw [parseSector_mode2 data h1 hs2 hm2] at hp
          by_cases hb : (data.getD 18 0 &&& 32 != 0) = true
          · rw [if_pos hb] at hp
            injection hp with h
            rw [← h] at hm
            simp at hm
          · rw [if_neg hb] at hp
            injection hp with h
            rw [← h] at hm
            simp at hm
        · rw [parseSector_unknownMode data h1 hs2 h0 hm1 hm2] at hp
          exact absurd hp (by simp)
  have hfc : s.file = none ∧ s.channel = none := by
    rcases hmode with h0 | h0
    · rw [parseSector_mode0 data h1 hs2 h0] at hp
      injection hp with h
      rw [← h]
      exact ⟨rfl, rfl⟩
    · rw [parseSector_mode1 data h1 hs2 h0] at hp
      injection hp with h
      rw [← h]
      exact ⟨rfl, rfl⟩
  refine ⟨hfc.1, hfc.2, ?_⟩
  have hne : data ++ rest ≠ [] := by
    intro hcon
    rcases List.append_eq_nil.mp hcon with ⟨hd, -⟩
    rw [hd] at h1
    simp at h1
  have ht : (data ++ rest).take SECTOR_SIZE = data := by
    have : data.length = SECTOR_SIZE := h1
    exact List.take_left' this
  rw [runAux, dif_neg hne, ht, hp]
  simp [sectorPath, hfc.1]

/-- Witness for C9: a stream consisting of the single mode-0 block
drives the model to the path-formatting failure. -/
theorem C9_driver_path_failure_witness :
    emptyParsed.file = none ∧ emptyParsed.channel = none ∧
    runDriver (blockEmpty ++ []) = .error .pathError :=
  C9_driver_path_failure blockEmpty [] emptyParsed 0 []
    (mkBlock_length 0x27 0x00 0x99 0 [] (by decide))
    parse_blockEmpty (.inl rfl)

/-- C10: sector construction is total: on any byte list the parser
either succeeds, in which case the input had the full 2352 bytes, so
every index and slice it took was in range and the payload length
equals data_size, or it fails with one of the three classified decode
errors. -/
theorem C10_parser_total (data : List Nat) :
    match parseSector data with
    | .ok s => data.length = 2352 ∧ s.data.length = s.data_size
    | .error e => e = .BadLength ∨ e = .BadSync ∨ e = .UnknownMode := by
  rcases parseSector_cases data with ⟨hl, hp⟩ | ⟨hl, hs, hp⟩ |
    ⟨hl, hs, hm, s, hp⟩ | ⟨hl, hs, h0, hm1, hm2, hp⟩
  · rw [hp]
    exact .inl rfl
  · rw [hp]
    exact .inr (.inl rfl)
  · rw [hp]
    refine ⟨hl, ?_⟩
    rcases hm with h0 | h0 | h0
    · rw [parseSector_mode0 data hl hs h0] at hp
      injection hp with h
      rw [← h]
      rfl
    · rw [parseSector_mode1 data hl hs h0] at hp
      injection hp with h
      rw [← h]
      show (subBytes data 16 2064).length = 2048
      rw [subBytes_length data 16 2064 (by omega)]
    · rw [parseSector_mode2 data hl hs h0] at hp
      by_cases hb : (data.getD 18 0 &&& 32 != 0) = true
      · rw [if_pos hb] at hp
        injection hp with h
        rw [← h]
        show (subBytes data 24 2348).length = 2324
        rw [subBytes_length data 24 2348 (by omega)]
      · rw [if_neg hb] at hp
        injection hp with h
        rw [← h]
        show (subBytes data 24 2072).length = 2048
        rw [subBytes_length data 24 2072 (by omega)]
  · rw [hp]
    exact .inr (.inr rfl)
